import Mathlib

/-!
# Verification of the `account` repository core

Shallow embedding of the repository's core logic:

* `create_position_df` (src/account/db.py): the Position Metrics Engine.
* `filter_dataframe_by_duration` (src/account/button_callbacks.py): the
  Duration Filter, including pandas `DateOffset` calendar arithmetic.
* the selection-resolution logic of `load_and_store_data` and
  `update_value_display` (src/account/button_callbacks.py).
* `SQLiteDB.get_database_tables`, `SQLiteDB.get_table_columns` and
  `SQLiteDB.execute_query` (src/account/db.py), with the sqlite engine
  abstracted as an oracle parameter.

Currency amounts are modelled as rationals.  A pandas float expression whose
value is non-finite (NaN from a lagged first row, inf/NaN from a division by
zero) is modelled as `none : Option ℚ`; finite values are `some q`.
-/

set_option autoImplicit false

namespace Account

/-! ## Calendar dates

`pd.Timestamp` values are modelled as year/month/day triples; chronological
order on valid dates is lexicographic order on the triple. -/

structure Date where
  year : Nat
  month : Nat
  day : Nat
deriving DecidableEq, Repr

def isLeapYear (y : Nat) : Bool :=
  y % 4 = 0 && (y % 100 ≠ 0 || y % 400 = 0)

def daysInMonth (y : Nat) (m : Nat) : Nat :=
  if m = 2 then (if isLeapYear y then 29 else 28)
  else if m = 4 ∨ m = 6 ∨ m = 9 ∨ m = 11 then 30
  else 31

/-- The calendar month preceding month `m` of year `y`. -/
def prevMonth : Nat × Nat → Nat × Nat
  | (y, m) => if 2 ≤ m then (y, m - 1) else (y - 1, 12)

/-- The calendar day before `d`. -/
def prevDay (d : Date) : Date :=
  if 2 ≤ d.day then ⟨d.year, d.month, d.day - 1⟩
  else ⟨(prevMonth (d.year, d.month)).1, (prevMonth (d.year, d.month)).2,
    daysInMonth (prevMonth (d.year, d.month)).1 (prevMonth (d.year, d.month)).2⟩

/-- `timestamp - pd.DateOffset(weeks=1)` is `subDays 7`. -/
def subDays : Nat → Date → Date
  | 0, d => d
  | n + 1, d => subDays n (prevDay d)

def shiftMonths : Nat → Nat × Nat → Nat × Nat
  | 0, p => p
  | k + 1, p => shiftMonths k (prevMonth p)

/-- `timestamp - pd.DateOffset(months=k)`: move back `k` calendar months and
clamp the day-of-month to the target month's length. -/
def subMonths (k : Nat) (d : Date) : Date :=
  ⟨(shiftMonths k (d.year, d.month)).1, (shiftMonths k (d.year, d.month)).2,
    min d.day (daysInMonth (shiftMonths k (d.year, d.month)).1
      (shiftMonths k (d.year, d.month)).2)⟩

/-- `timestamp - pd.DateOffset(years=k)`: move back `k` years and clamp the
day (Feb 29 → Feb 28). -/
def subYears (k : Nat) (d : Date) : Date :=
  ⟨d.year - k, d.month, min d.day (daysInMonth (d.year - k) d.month)⟩

/-- Chronological (= lexicographic, for valid dates) order on dates. -/
def dateLe (a b : Date) : Prop :=
  a.year < b.year ∨
    (a.year = b.year ∧ (a.month < b.month ∨ (a.month = b.month ∧ a.day ≤ b.day)))

instance (a b : Date) : Decidable (dateLe a b) := by
  unfold dateLe
  exact inferInstance

/-- A date a `pd.Timestamp` can carry: month and day in range. -/
def ValidDate (d : Date) : Prop :=
  1 ≤ d.year ∧ 1 ≤ d.month ∧ d.month ≤ 12 ∧ 1 ≤ d.day ∧
    d.day ≤ daysInMonth d.year d.month

instance (d : Date) : Decidable (ValidDate d) := by
  unfold ValidDate
  exact inferInstance

/-! ## Position Metrics Engine (`create_position_df`, src/account/db.py)

The pandas pipeline is, column-wise over the queried rows:
```
df["CumCredit"]   = df["Credit"].cumsum()
df["DollarDelta"] = df["Close"] - (df["Close"].shift(1) + df["Credit"])
df["PercDelta"]   = df["DollarDelta"] / df["Close"] * 100.0
df["Percentage"]  = ((df["Close"] / df["CumCredit"]) - 1.0) * 100.0
df.sort_values(by="Date")   -- result discarded: row order is unchanged
```
`buildPos` computes the same values row by row, carrying the running credit
sum (`cumsum`) and the previous row's close (`shift(1)`, `none` on row 0). -/

structure LedgerRow where
  date : Date
  credit : ℚ
  close : ℚ
deriving DecidableEq, Repr

structure PosRow where
  date : Date
  credit : ℚ
  close : ℚ
  cumCredit : ℚ
  dollarDelta : Option ℚ
  percDelta : Option ℚ
  percentage : Option ℚ
deriving DecidableEq, Repr

/-- Float division, `none` standing for the non-finite result of a division
by zero. -/
def odiv (a b : ℚ) : Option ℚ :=
  if b = 0 then none else some (a / b)

def buildPos (acc : ℚ) (prev : Option ℚ) : List LedgerRow → List PosRow
  | [] => []
  | r :: rest =>
      let cum := acc + r.credit
      let dd := prev.map (fun pc => r.close - (pc + r.credit))
      { date := r.date, credit := r.credit, close := r.close,
        cumCredit := cum,
        dollarDelta := dd,
        percDelta := (dd.bind (fun v => odiv v r.close)).map (fun q => q * 100),
        percentage := (odiv r.close cum).map (fun q => (q - 1) * 100) }
        :: buildPos cum (some r.close) rest

/-- `create_position_df` of src/account/db.py on the rows the `SELECT`
returned (the trailing result-discarding `df.sort_values(by="Date")` has no
effect and is omitted). -/
def create_position_df (rows : List LedgerRow) : List PosRow :=
  buildPos 0 none rows

def sumCred (rows : List LedgerRow) : ℚ :=
  (rows.map (fun r => r.credit)).sum

/-- Value of `Close.shift(1)` at row `i`. -/
def prevCloseAt (prev : Option ℚ) (rows : List LedgerRow) : Nat → Option ℚ
  | 0 => prev
  | j + 1 => (rows[j]?).map (fun r => r.close)

theorem buildPos_length (rows : List LedgerRow) :
    ∀ (acc : ℚ) (prev : Option ℚ), (buildPos acc prev rows).length = rows.length := by
  induction rows with
  | nil => intro acc prev; rfl
  | cons r rest ih =>
      intro acc prev
      simp [buildPos, ih]

theorem prevCloseAt_cons (a : LedgerRow) (t : List LedgerRow) (prev : Option ℚ)
    (j : Nat) :
    prevCloseAt prev (a :: t) (j + 1) = prevCloseAt (some a.close) t j := by
  cases j with
  | zero => simp [prevCloseAt]
  | succ k => simp [prevCloseAt]

theorem buildPos_getElem (rows : List LedgerRow) :
    ∀ (acc : ℚ) (prev : Option ℚ) (i : Nat) (r : LedgerRow), rows[i]? = some r →
      (buildPos acc prev rows)[i]? = some
        { date := r.date, credit := r.credit, close := r.close,
          cumCredit := acc + sumCred (rows.take (i + 1)),
          dollarDelta := (prevCloseAt prev rows i).map
            (fun pc => r.close - (pc + r.credit)),
          percDelta := (((prevCloseAt prev rows i).map
              (fun pc => r.close - (pc + r.credit))).bind
                (fun v => odiv v r.close)).map (fun q => q * 100),
          percentage := (odiv r.close (acc + sumCred (rows.take (i + 1)))).map
            (fun q => (q - 1) * 100) } := by
  induction rows with
  | nil =>
      intro acc prev i r h
      simp at h
  | cons a t ih =>
      intro acc prev i r h
      cases i with
      | zero =>
          simp only [List.getElem?_cons_zero, Option.some.injEq] at h
          subst h
          simp [buildPos, sumCred, prevCloseAt]
      | succ j =>
          simp only [List.getElem?_cons_succ] at h
          have step := ih (acc + a.credit) (some a.close) j r h
          simp only [buildPos, List.getElem?_cons_succ]
          rw [step]
          have hsum : (acc + a.credit) + sumCred (t.take (j + 1))
              = acc + sumCred ((a :: t).take (j + 1 + 1)) := by
            simp [sumCred]
            ring
          rw [prevCloseAt_cons a t prev j, hsum]

/-! ## Duration Filter (`_filter_dataframe_by_duration`, src/account/button_callbacks.py)

```
if duration == "Total": return df
latest_date = df["Date"].max()
if duration == "YTD": start_date = pd.Timestamp(year=latest_date.year, month=1, day=1)
elif duration == "1YR": start_date = latest_date - pd.DateOffset(years=1)
elif duration == "3MO": start_date = latest_date - pd.DateOffset(months=3)
elif duration == "1MO": start_date = latest_date - pd.DateOffset(months=1)
elif duration == "1WK": start_date = latest_date - pd.DateOffset(weeks=1)
filtered_df = df.loc[df["Date"] >= start_date]
```
For a token outside the chain, `start_date` is a never-assigned local and the
final comparison raises `UnboundLocalError`; this is the `.error` branch. -/

def maxDate (a b : Date) : Date :=
  if dateLe a b then b else a

/-- `df["Date"].max()` (an arbitrary default for the empty frame, on which
every filtered result is empty anyway). -/
def latest_date (df : List PosRow) : Date :=
  match df with
  | [] => ⟨1, 1, 1⟩
  | r :: rest => rest.foldl (fun acc s => maxDate acc s.date) r.date

/-- The `elif` chain computing `start_date`; `none` means the local variable
was never assigned. -/
def start_date (latest : Date) (duration : String) : Option Date :=
  if duration = "YTD" then some ⟨latest.year, 1, 1⟩
  else if duration = "1YR" then some (subYears 1 latest)
  else if duration = "3MO" then some (subMonths 3 latest)
  else if duration = "1MO" then some (subMonths 1 latest)
  else if duration = "1WK" then some (subDays 7 latest)
  else none

inductive FilterErr where
  /-- Python raises `UnboundLocalError` when the comparison reads the
  never-assigned `start_date`. -/
  | unboundLocalStartDate
deriving DecidableEq, Repr

def filter_dataframe_by_duration (df : List PosRow) (duration : String) :
    Except FilterErr (List PosRow) :=
  if duration = "Total" then .ok df
  else
    match start_date (latest_date df) duration with
    | some sd => .ok (df.filter (fun r => decide (dateLe sd r.date)))
    | none => .error .unboundLocalStartDate

/-- The row list of a non-raising filter call (empty for the raising case). -/
def okRows {ε α : Type} (x : Except ε (List α)) : List α :=
  match x with
  | .ok l => l
  | .error _ => []

/-! ## Selection resolution (`load_and_store_data` / `update_value_display`,
src/account/button_callbacks.py)

Both callbacks decode the trigger, then run
```
filter_time = "Total"
if triggered_type == "fund-button":
    for index, i in enumerate(duration_class):
        if i == "dynamic-button-active":
            filter_time = duration_id[index]["index"]; break
else:
    filter_time = button_name
    button_name = "none"
    for index, i in enumerate(fund_class):
        if i == "dynamic-button-active":
            button_name = fund_id[index]["index"]; break
    if button_name == "none":
        button_name = fund_id[index][0]          -- load_and_store_data
        button_name = fund_id[0]["index"]        -- update_value_display
```
A Dash pattern-id such as `{"type": "fund-button", "index": "VOO"}` is an
association list keyed by Python values; `fund_id[index][0]` looks up the
integer key `0` in such a dict and raises `KeyError`.  The loop variable
`index` after a `for` that never broke is the last position (unbound when the
list is empty, giving `NameError` at the fallback). -/

inductive PyKey where
  | strk (s : String)
  | intk (n : Int)
deriving DecidableEq, Repr

/-- A Dash component id dict, e.g.
`[(.strk "type", "fund-button"), (.strk "index", "VOO")]`. -/
abbrev BtnId := List (PyKey × String)

inductive PyErr where
  | keyError
  | indexError
  | nameError
deriving DecidableEq, Repr

/-- Python `d[k]` on a dict. -/
def dictGet (d : BtnId) (k : PyKey) : Except PyErr String :=
  match d.find? (fun kv => decide (kv.1 = k)) with
  | some kv => .ok kv.2
  | none => .error .keyError

/-- Python `xs[n]` on a list. -/
def pyIndex {α : Type} (xs : List α) (n : Nat) : Except PyErr α :=
  match xs[n]? with
  | some x => .ok x
  | none => .error .indexError

def activeClass : String := "dynamic-button-active"

/-- Index at which the `for`/`break` scan over the class-name array stops. -/
def findActiveIdx : List String → Option Nat
  | [] => none
  | c :: rest =>
      if c = activeClass then some 0 else (findActiveIdx rest).map (fun j => j + 1)

/-- `filter_time` in the fund-button branch: the first duration flagged
active, else the initial value `"Total"`. -/
def durationFilterTime (durationClass : List String) (durationId : List BtnId) :
    Except PyErr String :=
  match findActiveIdx durationClass with
  | some i => pyIndex durationId i >>= fun d => dictGet d (.strk "index")
  | none => .ok "Total"

/-- `button_name` after the fund-class loop ( `"none"` when no break). -/
def loopFundName (fundClass : List String) (fundId : List BtnId) :
    Except PyErr String :=
  match findActiveIdx fundClass with
  | some i => pyIndex fundId i >>= fun d => dictGet d (.strk "index")
  | none => .ok "none"

/-- Final value of the loop variable `index` (`none` when the loop never ran
and `index` is unbound). -/
def loopFinalIdx (fundClass : List String) : Option Nat :=
  match findActiveIdx fundClass with
  | some i => some i
  | none => if fundClass.length = 0 then none else some (fundClass.length - 1)

/-- Fund selection of `load_and_store_data`, fallback `fund_id[index][0]`. -/
def load_and_store_fund (fundClass : List String) (fundId : List BtnId) :
    Except PyErr String :=
  match loopFundName fundClass fundId with
  | .error e => .error e
  | .ok bn =>
      if bn = "none" then
        match loopFinalIdx fundClass with
        | none => .error .nameError
        | some idx => pyIndex fundId idx >>= fun d => dictGet d (.intk 0)
      else .ok bn

/-- Fund selection of `update_value_display`, fallback `fund_id[0]["index"]`. -/
def update_value_fund (fundClass : List String) (fundId : List BtnId) :
    Except PyErr String :=
  match loopFundName fundClass fundId with
  | .error e => .error e
  | .ok bn =>
      if bn = "none" then pyIndex fundId 0 >>= fun d => dictGet d (.strk "index")
      else .ok bn

/-- `(button_name, filter_time)` pair resolved by `load_and_store_data`. -/
def load_and_store_resolve (trigType trigIdx : String)
    (durationClass : List String) (durationId : List BtnId)
    (fundClass : List String) (fundId : List BtnId) :
    Except PyErr (String × String) :=
  if trigType = "fund-button" then
    (durationFilterTime durationClass durationId).map (fun ft => (trigIdx, ft))
  else
    (load_and_store_fund fundClass fundId).map (fun bn => (bn, trigIdx))

/-- `(button_name, filter_time)` pair resolved by `update_value_display`. -/
def update_value_resolve (trigType trigIdx : String)
    (durationClass : List String) (durationId : List BtnId)
    (fundClass : List String) (fundId : List BtnId) :
    Except PyErr (String × String) :=
  if trigType = "fund-button" then
    (durationFilterTime durationClass durationId).map (fun ft => (trigIdx, ft))
  else
    (update_value_fund fundClass fundId).map (fun bn => (bn, trigIdx))

/-! ## Storage Accessor (`SQLiteDB`, src/account/db.py)

The sqlite connection is modelled as `Option String`: `some db` is an open
connection to store `db`, `none` is closed.  Queries against a store are an
oracle parameter `q : String → Except SqlErr (List String)` returning the
table names the store reports (or a sqlite error). -/

structure AccessorState where
  database : String
  conn : Option String
deriving DecidableEq, Repr

def close_connection (st : AccessorState) : AccessorState :=
  { st with conn := none }

def create_connection (st : AccessorState) : AccessorState :=
  { st with conn := some st.database }

inductive SqlErr where
  | sqliteError
deriving DecidableEq, Repr

/-- `SQLiteDB.get_database_tables(database=...)`.  With a different target the
code switches, queries, and restores **only on the success path**: the
`except` clause re-raises without touching `self._database` or the
connection. -/
def get_database_tables (st : AccessorState) (database? : Option String)
    (q : String → Except SqlErr (List String)) :
    AccessorState × Except SqlErr (List String) :=
  match database? with
  | none => (st, q st.database)
  | some other =>
      let original := st.database
      let st1 := create_connection { close_connection st with database := other }
      match q other with
      | .error e => (st1, .error e)
      | .ok t =>
          let st2 := create_connection
            { close_connection st1 with database := original }
          (st2, .ok t)

/-- `SQLiteDB.get_table_columns(table, database=...)`: unlike
`get_database_tables`, both its success branch and its `except` branch reset
`self._database` to the original and re-open before returning/raising. -/
def get_table_columns (st : AccessorState) (database? : Option String)
    (q : String → Except SqlErr (List String)) :
    AccessorState × Except SqlErr (List String) :=
  match database? with
  | none => (st, q st.database)
  | some other =>
      let original := st.database
      let st1 := create_connection { close_connection st with database := other }
      match q other with
      | .error e =>
          let st2 := create_connection
            (close_connection { st1 with database := original })
          (st2, .error e)
      | .ok t =>
          let st2 := create_connection
            (close_connection { st1 with database := original })
          (st2, .ok t)

/-! ## `SQLiteDB.execute_query` (src/account/db.py)

```
query = query.replace("%s", "?")
num_placeholders = query.count("?")
if num_placeholders != len(params): raise ValueError(msg)
self._cur.execute(query, params)          -- engine oracle
if query.strip().upper().startswith(("INSERT","UPDATE","DELETE","CREATE","DROP")):
    self._conn.commit()
if self._cur.description: return DataFrame(rows)
else: self._conn.commit(); return DataFrame()
```
The sqlite engine and its store are abstracted: `engine` executes a statement
on a store state `σ`, returning the new state and either an engine error or
an optional result set (`none` = cursor has no description); `commit` is the
state effect of `conn.commit()`. -/

/-- Python `query.replace("%s", "?")` on the character list: left-to-right,
non-overlapping. -/
def replPS : List Char → List Char
  | [] => []
  | [c] => [c]
  | c :: d :: rest =>
      if c = '%' ∧ d = 's' then '?' :: replPS rest else c :: replPS (d :: rest)

/-- Whether the text still contains an occurrence of `"%s"`. -/
def hasPS : List Char → Bool
  | [] => false
  | [_] => false
  | c :: d :: rest => if c = '%' ∧ d = 's' then true else hasPS (d :: rest)

/-- `num_placeholders` as `execute_query` computes it. -/
def countQ (query : List Char) : Nat :=
  (replPS query).count '?'

def stripChars (query : List Char) : List Char :=
  ((query.dropWhile Char.isWhitespace).reverse.dropWhile Char.isWhitespace).reverse

def mutatingKeywords : List (List Char) :=
  ["INSERT".toList, "UPDATE".toList, "DELETE".toList, "CREATE".toList,
    "DROP".toList]

def startsWithMutating (query : List Char) : Bool :=
  mutatingKeywords.any
    (fun kw => kw.isPrefixOf ((stripChars query).map Char.toUpper))

inductive EngErr where
  | engineFailure
deriving DecidableEq, Repr

inductive ExecErr where
  /-- The `ValueError` raised on a placeholder/parameter count mismatch. -/
  | parameterMismatch
  /-- Any `sqlite3` error, re-raised as `sqlite3.Error("Failed to execute query: ...")`. -/
  | queryFailure
deriving DecidableEq, Repr

def execute_query {σ ρ π : Type}
    (engine : σ → List Char → List π → σ × Except EngErr (Option ρ))
    (commit : σ → σ) (st : σ) (query : List Char) (params : List π) :
    σ × Except ExecErr (Option ρ) :=
  let q := replPS query
  if q.count '?' ≠ params.length then (st, .error .parameterMismatch)
  else
    match engine st q params with
    | (st1, .error _) => (st1, .error .queryFailure)
    | (st1, .ok desc) =>
        let st2 := if startsWithMutating q then commit st1 else st1
        match desc with
        | some rows => (st2, .ok (some rows))
        | none => (commit st2, .ok none)

/-! ## Concrete fixtures -/

/-- The three ledger rows of spec Example 1, dates parsed from
`MM-DD-YYYY`. -/
def ex1Rows : List LedgerRow :=
  [⟨⟨2023, 1, 1⟩, 1000, 1000⟩, ⟨⟨2023, 1, 2⟩, 0, 1010⟩, ⟨⟨2023, 1, 3⟩, 0, 1050⟩]

/-- A one-row ledger whose cumulative credit is zero. -/
def zeroCreditRows : List LedgerRow :=
  [⟨⟨2023, 1, 1⟩, 0, 50⟩]

/-- The derived record `create_position_df zeroCreditRows` produces. -/
def zeroCreditPos : PosRow :=
  { date := ⟨2023, 1, 1⟩, credit := 0, close := 50, cumCredit := 0,
    dollarDelta := none, percDelta := none, percentage := none }

/-- The first derived record of Example 1. -/
def ex1Pos0 : PosRow :=
  { date := ⟨2023, 1, 1⟩, credit := 1000, close := 1000, cumCredit := 1000,
    dollarDelta := none, percDelta := none, percentage := some 0 }

/-! ## Metrics-engine lemmas -/

theorem cpd_source_row (rows : List LedgerRow) (i : Nat) (r' : PosRow)
    (h : (create_position_df rows)[i]? = some r') :
    ∃ r, rows[i]? = some r := by
  cases hr : rows[i]? with
  | some r => exact ⟨r, rfl⟩
  | none =>
      exfalso
      have hlen : rows.length ≤ i := by
        by_contra hlt
        push_neg at hlt
        rw [List.getElem?_eq_getElem hlt] at hr
        exact Option.noConfusion hr
      have hnone : (create_position_df rows)[i]? = none := by
        apply List.getElem?_eq_none
        rw [create_position_df, buildPos_length]
        exact hlen
      rw [hnone] at h
      exact Option.noConfusion h

theorem cpd_shape (rows : List LedgerRow) (i : Nat) (r : LedgerRow) (r' : PosRow)
    (hr : rows[i]? = some r)
    (h : (create_position_df rows)[i]? = some r') :
    r' = { date := r.date, credit := r.credit, close := r.close,
           cumCredit := 0 + sumCred (rows.take (i + 1)),
           dollarDelta := (prevCloseAt none rows i).map
             (fun pc => r.close - (pc + r.credit)),
           percDelta := (((prevCloseAt none rows i).map
               (fun pc => r.close - (pc + r.credit))).bind
                 (fun v => odiv v r.close)).map (fun q => q * 100),
           percentage := (odiv r.close (0 + sumCred (rows.take (i + 1)))).map
             (fun q => (q - 1) * 100) } := by
  have hb := buildPos_getElem rows 0 none i r hr
  rw [create_position_df] at h
  rw [hb] at h
  injection h with h2
  exact h2.symm

/-! ## Claim C1 -/

/-- **C1.** For every derived row of `create_position_df`, the `Percentage`
value is the undefined marker exactly when the row's `CumCredit` is zero (a
value, not an exception), and otherwise equals
`(Close / CumCredit - 1) * 100`. -/
theorem c1_percentage_undefined_iff_cumcredit_zero
    (rows : List LedgerRow) (i : Nat) (r' : PosRow)
    (h : (create_position_df rows)[i]? = some r') :
    (r'.percentage = none ↔ r'.cumCredit = 0) ∧
      (r'.cumCredit ≠ 0 →
        r'.percentage = some ((r'.close / r'.cumCredit - 1) * 100)) := by
  obtain ⟨r, hr⟩ := cpd_source_row rows i r' h
  have hshape := cpd_shape rows i r r' hr h
  subst hshape
  simp only [odiv, zero_add]
  by_cases hc : sumCred (rows.take (i + 1)) = 0
  · rw [if_pos hc]
    constructor
    · simp [hc]
    · intro hne
      exact absurd hc hne
  · rw [if_neg hc]
    constructor
    · simp [hc]
    · intro _
      simp

/-- Witness for C1 at the zero-credit fixture (`CumCredit = 0` gives the
undefined marker) by applying `c1_percentage_undefined_iff_cumcredit_zero`. -/
theorem c1_witness :
    (zeroCreditPos.percentage = none ↔ zeroCreditPos.cumCredit = 0) ∧
      (zeroCreditPos.cumCredit ≠ 0 →
        zeroCreditPos.percentage
          = some ((zeroCreditPos.close / zeroCreditPos.cumCredit - 1) * 100)) :=
  c1_percentage_undefined_iff_cumcredit_zero zeroCreditRows 0 zeroCreditPos
    (by norm_num [zeroCreditRows, zeroCreditPos, create_position_df, buildPos,
      odiv])

/-! ## Claim C2 -/

/-- **C2.** `CumCredit[i]` is the running sum of `Credit[0..i]` for every
row of every input, and on the three rows of spec Example 1 the engine
yields `CumCredit = [1000, 1000, 1000]` and `Percentage = [0, 1, 5]`. -/
theorem c2_cumcredit_running_sum :
    (∀ (rows : List LedgerRow) (i : Nat) (r' : PosRow),
        (create_position_df rows)[i]? = some r' →
          r'.cumCredit = sumCred (rows.take (i + 1))) ∧
      (create_position_df ex1Rows).map (fun r => r.cumCredit)
          = [1000, 1000, 1000] ∧
      (create_position_df ex1Rows).map (fun r => r.percentage)
          = [some 0, some 1, some 5] := by
  refine ⟨?_,
    by norm_num [ex1Rows, create_position_df, buildPos, odiv],
    by norm_num [ex1Rows, create_position_df, buildPos, odiv]⟩
  intro rows i r' h
  obtain ⟨r, hr⟩ := cpd_source_row rows i r' h
  have hshape := cpd_shape rows i r r' hr h
  subst hshape
  simp

/-- Witness for C2: the running-sum clause applied at row 0 of Example 1. -/
theorem c2_witness :
    ex1Pos0.cumCredit = sumCred (ex1Rows.take 1) :=
  c2_cumcredit_running_sum.1 ex1Rows 0 ex1Pos0
    (by norm_num [ex1Rows, ex1Pos0, create_position_df, buildPos, odiv])

/-! ## Claim C9 -/

/-- **C9.** The engine keeps the rows in input order with `Date`, `Credit`
and `Close` unchanged (it only appends derived columns), and the derived
`DollarDelta` is the exact, unrounded value
`Close[i] - (Close[i-1] + Credit[i])`. -/
theorem c9_order_and_values_preserved (rows : List LedgerRow) :
    (create_position_df rows).length = rows.length ∧
      (∀ (i : Nat) (r : LedgerRow) (r' : PosRow),
        rows[i]? = some r → (create_position_df rows)[i]? = some r' →
          r'.date = r.date ∧ r'.credit = r.credit ∧ r'.close = r.close) ∧
      (∀ (j : Nat) (rp r : LedgerRow) (r' : PosRow),
        rows[j]? = some rp → rows[j + 1]? = some r →
          (create_position_df rows)[j + 1]? = some r' →
            r'.dollarDelta = some (r.close - (rp.close + r.credit))) := by
  refine ⟨by rw [create_position_df, buildPos_length], ?_, ?_⟩
  · intro i r r' hr h
    have hshape := cpd_shape rows i r r' hr h
    subst hshape
    exact ⟨rfl, rfl, rfl⟩
  · intro j rp r r' hj hr h
    have hshape := cpd_shape rows (j + 1) r r' hr h
    subst hshape
    simp [prevCloseAt, hj]

/-- Witness for C9 at Example 1, row 1
(`DollarDelta = 1010 - (1000 + 0) = 10`). -/
theorem c9_witness :
    { date := ⟨2023, 1, 2⟩, credit := 0, close := 1010, cumCredit := 1000,
      dollarDelta := some 10, percDelta := some (100 / 101),
      percentage := some 1 : PosRow }.dollarDelta
        = some ((1010 : ℚ) - (1000 + 0)) :=
  (c9_order_and_values_preserved ex1Rows).2.2 0 ⟨⟨2023, 1, 1⟩, 1000, 1000⟩
    ⟨⟨2023, 1, 2⟩, 0, 1010⟩ _
    (by norm_num [ex1Rows]) (by norm_num [ex1Rows])
    (by norm_num [ex1Rows, create_position_df, buildPos, odiv])

/-! ## Placeholder rewriting lemmas -/

theorem replPS_head? (l : List Char) :
    (replPS l).head? = l.head? ∨ (replPS l).head? = some '?' := by
  match l with
  | [] => exact Or.inl rfl
  | [c] => exact Or.inl rfl
  | c :: d :: t =>
      by_cases hp : c = '%' ∧ d = 's'
      · right
        rw [replPS, if_pos hp]
        rfl
      · left
        rw [replPS, if_neg hp]
        rfl

theorem hasPS_replPS (q : List Char) : hasPS (replPS q) = false := by
  match q with
  | [] => rfl
  | [c] => rfl
  | c :: d :: t =>
      by_cases hp : c = '%' ∧ d = 's'
      · rw [replPS, if_pos hp]
        cases hrt : replPS t with
        | nil => rfl
        | cons e l =>
            rw [hasPS, if_neg (by simp)]
            rw [← hrt]
            exact hasPS_replPS t
      · rw [replPS, if_neg hp]
        cases hrt : replPS (d :: t) with
        | nil => rfl
        | cons e l =>
            have hcond : ¬(c = '%' ∧ e = 's') := by
              intro ⟨hc, he⟩
              apply hp
              refine ⟨hc, ?_⟩
              rcases replPS_head? (d :: t) with hh | hh
              · rw [hrt] at hh
                simp only [List.head?] at hh
                rw [he] at hh
                injection hh with hh
                exact hh.symm
              · rw [hrt] at hh
                simp only [List.head?] at hh
                injection hh with hh
                rw [he] at hh
                exact absurd hh (by decide)
            rw [hasPS, if_neg hcond, ← hrt]
            exact hasPS_replPS (d :: t)

theorem replPS_of_not_hasPS (l : List Char) (h : hasPS l = false) :
    replPS l = l := by
  match l with
  | [] => rfl
  | [c] => rfl
  | c :: d :: t =>
      by_cases hp : c = '%' ∧ d = 's'
      · rw [hasPS, if_pos hp] at h
        exact absurd h (by simp)
      · rw [hasPS, if_neg hp] at h
        rw [replPS, if_neg hp, replPS_of_not_hasPS (d :: t) h]

/-- `replace("%s", "?")` is idempotent: no `"%s"` survives the first pass. -/
theorem replPS_idem (q : List Char) : replPS (replPS q) = replPS q :=
  replPS_of_not_hasPS (replPS q) (hasPS_replPS q)

/-! ## Claim C8 -/

/-- **C8.** `execute_query` fails with the placeholder/parameter mismatch
error exactly when the placeholder count of the (rewritten) query differs
from the parameter count, and in that case it fails before touching the
store: the returned store state is the input state, for every engine. -/
theorem c8_parameter_mismatch_iff {σ ρ π : Type}
    (engine : σ → List Char → List π → σ × Except EngErr (Option ρ))
    (commit : σ → σ) (st : σ) (query : List Char) (params : List π) :
    ((execute_query engine commit st query params).2
        = .error .parameterMismatch ↔ countQ query ≠ params.length) ∧
      (countQ query ≠ params.length →
        (execute_query engine commit st query params).1 = st) := by
  unfold execute_query countQ
  by_cases h : (replPS query).count '?' ≠ params.length
  · rw [if_pos h]
    exact ⟨⟨fun _ => h, fun _ => rfl⟩, fun _ => rfl⟩
  · rw [if_neg h]
    refine ⟨⟨fun he => ?_, fun hc => absurd hc h⟩, fun hc => absurd hc h⟩
    exfalso
    rcases heng : engine st (replPS query) params with ⟨st1, res⟩
    rw [heng] at he
    cases res with
    | error e => simp at he
    | ok desc => cases desc <;> simp at he

/-- A trivial engine oracle for witnessing `execute_query` facts. -/
def trivEngine : Unit → List Char → List Unit → Unit × Except EngErr (Option Unit) :=
  fun _ _ _ => ((), .ok none)

/-- Witness for C8: one `?` placeholder against zero parameters raises the
mismatch error with the store untouched, by `c8_parameter_mismatch_iff`. -/
theorem c8_witness :
    countQ ("SELECT * FROM Funds WHERE Fund = ?".toList)
        ≠ ([] : List Unit).length ∧
      (execute_query trivEngine id ()
          ("SELECT * FROM Funds WHERE Fund = ?".toList) ([] : List Unit)).2
        = .error .parameterMismatch ∧
      (execute_query trivEngine id ()
          ("SELECT * FROM Funds WHERE Fund = ?".toList) ([] : List Unit)).1
        = () := by
  have hne : countQ ("SELECT * FROM Funds WHERE Fund = ?".toList)
      ≠ ([] : List Unit).length := by decide
  refine ⟨hne, ?_, ?_⟩
  · exact (c8_parameter_mismatch_iff trivEngine id ()
      ("SELECT * FROM Funds WHERE Fund = ?".toList) ([] : List Unit)).1.mpr hne
  · exact (c8_parameter_mismatch_iff trivEngine id ()
      ("SELECT * FROM Funds WHERE Fund = ?".toList) ([] : List Unit)).2 hne

/-! ## Claim C10 -/

/-- **C10.** `execute_query` first rewrites every `"%s"` to `"?"`: nothing
that still reads `"%s"` survives the rewrite, and running a query is
indistinguishable from running its rewritten form, for every engine, store
and parameter list — so `%s`-style and `?`-style placeholders are
interchangeable, both counting toward the placeholder check. -/
theorem c10_percent_s_rewrite (query : List Char) :
    hasPS (replPS query) = false ∧
      ∀ {σ ρ π : Type}
        (engine : σ → List Char → List π → σ × Except EngErr (Option ρ))
        (commit : σ → σ) (st : σ) (params : List π),
        execute_query engine commit st query params
          = execute_query engine commit st (replPS query) params := by
  refine ⟨hasPS_replPS query, ?_⟩
  intro σ ρ π engine commit st params
  unfold execute_query
  rw [replPS_idem]

/-! ## Claim C4: unknown duration token -/

/-- **C4 (code evaluation).** On an unknown token the filter does not return
rows, but the failure is the generic unbound-`start_date` error
(`UnboundLocalError` in the source), not a dedicated unknown-token error:
`FilterErr` — the error vocabulary of the embedded filter — has no
unknown-token member, only `unboundLocalStartDate`. -/
theorem c4_unknown_token_unbound_local :
    filter_dataframe_by_duration (create_position_df ex1Rows) "3WK"
        = .error .unboundLocalStartDate ∧
      (∀ e : FilterErr, e = .unboundLocalStartDate) := by
  constructor
  · rfl
  · intro e
    cases e
    rfl

/-! ## Claim C3: duration-trigger fund fallback -/

def spyId : BtnId := [(.strk "type", "fund-button"), (.strk "index", "SPY")]

def vooId : BtnId := [(.strk "type", "fund-button"), (.strk "index", "VOO")]

/-- **C3 (code evaluation).** Duration button `"1MO"` triggers while no fund
is flagged active, with configured funds `[SPY, VOO]`.
`load_and_store_data`'s fallback `fund_id[index][0]` reuses the stale loop
index (the last position) and looks up the integer key `0` in the id dict,
raising `KeyError` — it does not select the first configured fund.
`update_value_display`'s fallback `fund_id[0]["index"]` returns
`("SPY", "1MO")` as the claim demands. -/
theorem c3_load_fallback_key_error :
    load_and_store_resolve "duration-button" "1MO" [] []
        ["dynamic-button", "dynamic-button"] [spyId, vooId]
        = .error .keyError ∧
      update_value_resolve "duration-button" "1MO" [] []
        ["dynamic-button", "dynamic-button"] [spyId, vooId]
        = .ok ("SPY", "1MO") :=
  ⟨rfl, rfl⟩

/-! ## Claim C5: target restoration in `get_database_tables` -/

def stOrig : AccessorState := ⟨"orig.db", some "orig.db"⟩

/-- A query oracle that always fails. -/
def failQ : String → Except SqlErr (List String) := fun _ => .error .sqliteError

/-- A query oracle that always succeeds. -/
def okQ : String → Except SqlErr (List String) := fun _ => .ok ["Funds"]

/-- **C5 (code evaluation).** `get_database_tables` with a different store
path restores its original target only on the success path.  When the query
against the other store fails, the accessor is left pointing at the other
store (`database = "other.db"`, connection open on it) instead of the
original — whereas on success, and in `get_table_columns` even on failure,
the original target is restored. -/
theorem c5_no_restore_on_failure :
    (get_database_tables stOrig (some "other.db") failQ).1.database
        = "other.db" ∧
      (get_database_tables stOrig (some "other.db") failQ).1.database
        ≠ "orig.db" ∧
      (get_database_tables stOrig (some "other.db") failQ).1.conn
        = some "other.db" ∧
      (get_database_tables stOrig (some "other.db") okQ).1 = stOrig ∧
      (get_table_columns stOrig (some "other.db") failQ).1 = stOrig :=
  ⟨rfl, by decide, rfl, rfl, rfl⟩

/-! ## Claim C7: fund-trigger resolution -/

theorem findActiveIdx_eq_none (l : List String)
    (h : ∀ c ∈ l, c ≠ activeClass) : findActiveIdx l = none := by
  induction l with
  | nil => rfl
  | cons c t ih =>
      rw [findActiveIdx, if_neg (h c (List.mem_cons_self c t))]
      rw [ih (fun x hx => h x (List.mem_cons_of_mem c hx))]
      rfl

theorem findActiveIdx_eq_first (l : List String) :
    ∀ (i : Nat), l[i]? = some activeClass →
      (∀ j, j < i → l[j]? ≠ some activeClass) → findActiveIdx l = some i := by
  induction l with
  | nil =>
      intro i hi _
      simp at hi
  | cons c t ih =>
      intro i hi hfirst
      cases i with
      | zero =>
          simp only [List.getElem?_cons_zero, Option.some.injEq] at hi
          rw [findActiveIdx, if_pos hi]
      | succ j =>
          have hc : ¬(c = activeClass) := by
            intro hcc
            exact hfirst 0 (Nat.succ_pos j) (by simp [hcc])
          rw [findActiveIdx, if_neg hc]
          simp only [List.getElem?_cons_succ] at hi
          rw [ih j hi (fun k hk => by
            have := hfirst (k + 1) (Nat.succ_lt_succ hk)
            simpa using this)]
          rfl

/-- **C7.** When the fund group triggers, both callbacks resolve to the
triggered fund paired with the duration flagged active — `"Total"` when no
duration is flagged, and the unique flagged member's id otherwise — and
they agree on every input. -/
theorem c7_fund_trigger_resolution (trigIdx : String)
    (durationClass : List String) (durationId : List BtnId)
    (fundClass : List String) (fundId : List BtnId) :
    (load_and_store_resolve "fund-button" trigIdx durationClass durationId
        fundClass fundId
      = update_value_resolve "fund-button" trigIdx durationClass durationId
        fundClass fundId) ∧
    ((∀ c ∈ durationClass, c ≠ activeClass) →
      load_and_store_resolve "fund-button" trigIdx durationClass durationId
          fundClass fundId = .ok (trigIdx, "Total")) ∧
    (∀ (i : Nat) (d : BtnId) (v : String),
      durationClass[i]? = some activeClass →
      (∀ j, j < durationClass.length → j ≠ i →
        durationClass[j]? ≠ some activeClass) →
      durationId[i]? = some d →
      dictGet d (.strk "index") = .ok v →
      load_and_store_resolve "fund-button" trigIdx durationClass durationId
          fundClass fundId = .ok (trigIdx, v)) := by
  refine ⟨by rw [load_and_store_resolve, update_value_resolve, if_pos rfl,
    if_pos rfl], ?_, ?_⟩
  · intro h
    rw [load_and_store_resolve, if_pos rfl, durationFilterTime,
      findActiveIdx_eq_none durationClass h]
    rfl
  · intro i d v hi hfirst hd hv
    have hilen : i < durationClass.length := by
      by_contra hge
      push_neg at hge
      rw [List.getElem?_eq_none hge] at hi
      exact Option.noConfusion hi
    have hfi := findActiveIdx_eq_first durationClass i hi
      (fun j hj => hfirst j (Nat.lt_trans hj hilen) (Nat.ne_of_lt hj))
    rw [load_and_store_resolve, if_pos rfl, durationFilterTime, hfi]
    have hpi : pyIndex durationId i = Except.ok d := by
      simp only [pyIndex, hd]
    have hbind : (pyIndex durationId i >>= fun x => dictGet x (PyKey.strk "index"))
        = Except.ok v := by
      rw [hpi]
      show dictGet d (PyKey.strk "index") = Except.ok v
      exact hv
    show Except.map (fun ft => (trigIdx, ft))
      (pyIndex durationId i >>= fun x => dictGet x (PyKey.strk "index"))
        = Except.ok (trigIdx, v)
    rw [hbind]
    rfl

def totalBtn : BtnId := [(.strk "type", "duration-button"), (.strk "index", "Total")]

def ytdBtn : BtnId := [(.strk "type", "duration-button"), (.strk "index", "YTD")]

/-- Witness for C7 at spec Example 3: fund trigger `"VOO"` with `"YTD"`
flagged resolves to `("VOO", "YTD")`, by `c7_fund_trigger_resolution`. -/
theorem c7_witness :
    load_and_store_resolve "fund-button" "VOO"
        ["dynamic-button", "dynamic-button-active"] [totalBtn, ytdBtn] [] []
        = .ok ("VOO", "YTD") :=
  (c7_fund_trigger_resolution "VOO"
      ["dynamic-button", "dynamic-button-active"] [totalBtn, ytdBtn] [] []).2.2
    1 ytdBtn "YTD" (by decide) (by decide) (by decide) rfl

/-! ## Calendar-arithmetic lemmas for the duration cutoffs -/

theorem daysInMonth_ge_28 (y m : Nat) : 28 ≤ daysInMonth y m := by
  unfold daysInMonth
  split
  · split <;> omega
  · split <;> omega

theorem shiftMonths_spec :
    ∀ (k y m : Nat), 1 ≤ m → m ≤ 12 → k + 1 ≤ 12 * y + m →
      12 * (shiftMonths k (y, m)).1 + (shiftMonths k (y, m)).2
          = 12 * y + m - k ∧
        1 ≤ (shiftMonths k (y, m)).2 ∧ (shiftMonths k (y, m)).2 ≤ 12 := by
  intro k
  induction k with
  | zero =>
      intro y m h1 h2 _
      have h0 : shiftMonths 0 (y, m) = (y, m) := rfl
      rw [h0]
      exact ⟨by omega, h1, h2⟩
  | succ k ih =>
      intro y m h1 h2 hk
      have hstep : shiftMonths (k + 1) (y, m) = shiftMonths k (prevMonth (y, m)) :=
        rfl
      by_cases h2m : 2 ≤ m
      · have hpm : prevMonth (y, m) = (y, m - 1) := by
          rw [prevMonth, if_pos h2m]
        rw [hstep, hpm]
        obtain ⟨ha, hb, hc⟩ := ih y (m - 1) (by omega) (by omega) (by omega)
        exact ⟨by omega, hb, hc⟩
      · have hm1 : m = 1 := by omega
        have hy1 : 1 ≤ y := by omega
        have hpm : prevMonth (y, m) = (y - 1, 12) := by
          rw [prevMonth, if_neg h2m]
        rw [hstep, hpm]
        obtain ⟨ha, hb, hc⟩ := ih (y - 1) 12 (by omega) (by omega) (by omega)
        exact ⟨by omega, hb, hc⟩

theorem dateLe_of_mIdx_lt (a b : Date) (ha1 : 1 ≤ a.month) (ha2 : a.month ≤ 12)
    (hb1 : 1 ≤ b.month) (hb2 : b.month ≤ 12)
    (h : 12 * a.year + a.month < 12 * b.year + b.month) : dateLe a b := by
  unfold dateLe
  omega

theorem dateLe_trans {a b c : Date} (h1 : dateLe a b) (h2 : dateLe b c) :
    dateLe a c := by
  unfold dateLe at *
  omega

theorem subDays_within : ∀ (n : Nat) (d : Date), n + 1 ≤ d.day →
    subDays n d = ⟨d.year, d.month, d.day - n⟩ := by
  intro n
  induction n with
  | zero =>
      intro d _
      cases d
      rfl
  | succ n ih =>
      intro d hn
      have hstep : subDays (n + 1) d = subDays n (prevDay d) := rfl
      have hpd : prevDay d = ⟨d.year, d.month, d.day - 1⟩ := by
        rw [prevDay, if_pos (by omega)]
      rw [hstep, hpd, ih ⟨d.year, d.month, d.day - 1⟩ (by simp; omega)]
      simp
      omega

theorem subDays_add : ∀ (a b : Nat) (d : Date),
    subDays (a + b) d = subDays b (subDays a d) := by
  intro a
  induction a with
  | zero =>
      intro b d
      rw [Nat.zero_add]
      rfl
  | succ a ih =>
      intro b d
      have h1 : a + 1 + b = (a + b) + 1 := by omega
      rw [h1]
      have h2 : subDays ((a + b) + 1) d = subDays (a + b) (prevDay d) := rfl
      have h3 : subDays (a + 1) d = subDays a (prevDay d) := rfl
      rw [h2, h3, ih b (prevDay d)]

/-- The `1MO` cutoff is on or before the `1WK` cutoff. -/
theorem subMonths_one_le_subDays_seven (d : Date) (hv : ValidDate d) :
    dateLe (subMonths 1 d) (subDays 7 d) := by
  obtain ⟨hy, hm1, hm2, hd1, hd2⟩ := hv
  have hdim28 : 28 ≤ daysInMonth d.year d.month := daysInMonth_ge_28 d.year d.month
  obtain ⟨hmi, hp1, hp2⟩ := shiftMonths_spec 1 d.year d.month hm1 hm2 (by omega)
  by_cases h8 : 8 ≤ d.day
  · rw [subDays_within 7 d (by omega)]
    apply dateLe_of_mIdx_lt
    · exact hp1
    · exact hp2
    · exact hm1
    · exact hm2
    · show 12 * (shiftMonths 1 (d.year, d.month)).1
          + (shiftMonths 1 (d.year, d.month)).2 < 12 * d.year + d.month
      omega
  · have hsplit : (7 : Nat) = (d.day - 1) + (8 - d.day) := by omega
    rw [hsplit, subDays_add, subDays_within (d.day - 1) d (by omega)]
    have hone : d.day - (d.day - 1) = 1 := by omega
    rw [hone]
    have hstep : (8 - d.day) = (7 - d.day) + 1 := by omega
    rw [hstep]
    have hrec : subDays ((7 - d.day) + 1) (⟨d.year, d.month, 1⟩ : Date)
        = subDays (7 - d.day) (prevDay ⟨d.year, d.month, 1⟩) := rfl
    rw [hrec]
    have hpd : prevDay (⟨d.year, d.month, 1⟩ : Date)
        = ⟨(prevMonth (d.year, d.month)).1, (prevMonth (d.year, d.month)).2,
            daysInMonth (prevMonth (d.year, d.month)).1
              (prevMonth (d.year, d.month)).2⟩ := by
      rw [prevDay, if_neg (by norm_num)]
    rw [hpd]
    have hdim28p : 28 ≤ daysInMonth (prevMonth (d.year, d.month)).1
        (prevMonth (d.year, d.month)).2 := daysInMonth_ge_28 _ _
    rw [subDays_within (7 - d.day) _ (by simp; omega)]
    have hsm : subMonths 1 d
        = ⟨(prevMonth (d.year, d.month)).1, (prevMonth (d.year, d.month)).2,
            min d.day (daysInMonth (prevMonth (d.year, d.month)).1
              (prevMonth (d.year, d.month)).2)⟩ := rfl
    rw [hsm]
    unfold dateLe
    dsimp only
    omega

/-- The `3MO` cutoff is on or before the `1MO` cutoff. -/
theorem subMonths_three_le_subMonths_one (d : Date) (hv : ValidDate d) :
    dateLe (subMonths 3 d) (subMonths 1 d) := by
  obtain ⟨hy, hm1, hm2, hd1, hd2⟩ := hv
  obtain ⟨hmi1, h11, h12⟩ := shiftMonths_spec 1 d.year d.month hm1 hm2 (by omega)
  obtain ⟨hmi3, h31, h32⟩ := shiftMonths_spec 3 d.year d.month hm1 hm2 (by omega)
  apply dateLe_of_mIdx_lt
  · exact h31
  · exact h32
  · exact h11
  · exact h12
  · show 12 * (shiftMonths 3 (d.year, d.month)).1
        + (shiftMonths 3 (d.year, d.month)).2
      < 12 * (shiftMonths 1 (d.year, d.month)).1
        + (shiftMonths 1 (d.year, d.month)).2
    omega

/-- The `1YR` cutoff is on or before the `3MO` cutoff. -/
theorem subYears_one_le_subMonths_three (d : Date) (hv : ValidDate d) :
    dateLe (subYears 1 d) (subMonths 3 d) := by
  obtain ⟨hy, hm1, hm2, hd1, hd2⟩ := hv
  obtain ⟨hmi3, h31, h32⟩ := shiftMonths_spec 3 d.year d.month hm1 hm2 (by omega)
  apply dateLe_of_mIdx_lt
  · exact hm1
  · exact hm2
  · exact h31
  · exact h32
  · show 12 * (d.year - 1) + d.month
      < 12 * (shiftMonths 3 (d.year, d.month)).1
        + (shiftMonths 3 (d.year, d.month)).2
    omega

/-! ## The latest date of a series -/

theorem foldl_maxDate_mem (l : List PosRow) :
    ∀ (a : Date), l.foldl (fun acc s => maxDate acc s.date) a = a ∨
      (l.foldl (fun acc s => maxDate acc s.date) a) ∈ l.map (fun r => r.date) := by
  induction l with
  | nil =>
      intro a
      exact Or.inl rfl
  | cons s t ih =>
      intro a
      rw [List.foldl_cons]
      rcases ih (maxDate a s.date) with h | h
      · rw [h]
        by_cases hm : dateLe a s.date
        · rw [maxDate, if_pos hm]
          exact Or.inr (by simp)
        · rw [maxDate, if_neg hm]
          exact Or.inl rfl
      · exact Or.inr (List.mem_cons_of_mem _ h)

theorem latest_date_valid (df : List PosRow) (h : ∀ r ∈ df, ValidDate r.date) :
    ValidDate (latest_date df) := by
  cases df with
  | nil =>
      rw [latest_date]
      decide
  | cons r t =>
      rw [latest_date]
      rcases foldl_maxDate_mem t r.date with heq | hmem
      · rw [heq]
        exact h r (List.mem_cons_self r t)
      · rw [List.mem_map] at hmem
        obtain ⟨s, hs, hsd⟩ := hmem
        rw [← hsd]
        exact h s (List.mem_cons_of_mem r hs)

/-! ## Evaluating the duration filter at each recognized token -/

theorem filter_token_Total (df : List PosRow) :
    filter_dataframe_by_duration df "Total" = .ok df := rfl

theorem filter_token_YTD (df : List PosRow) :
    filter_dataframe_by_duration df "YTD"
      = .ok (df.filter (fun r =>
          decide (dateLe ⟨(latest_date df).year, 1, 1⟩ r.date))) := by
  rw [filter_dataframe_by_duration, if_neg (by decide), start_date,
    if_pos rfl]

theorem filter_token_1YR (df : List PosRow) :
    filter_dataframe_by_duration df "1YR"
      = .ok (df.filter (fun r =>
          decide (dateLe (subYears 1 (latest_date df)) r.date))) := by
  rw [filter_dataframe_by_duration, if_neg (by decide), start_date,
    if_neg (by decide), if_pos rfl]

theorem filter_token_3MO (df : List PosRow) :
    filter_dataframe_by_duration df "3MO"
      = .ok (df.filter (fun r =>
          decide (dateLe (subMonths 3 (latest_date df)) r.date))) := by
  rw [filter_dataframe_by_duration, if_neg (by decide), start_date,
    if_neg (by decide), if_neg (by decide), if_pos rfl]

theorem filter_token_1MO (df : List PosRow) :
    filter_dataframe_by_duration df "1MO"
      = .ok (df.filter (fun r =>
          decide (dateLe (subMonths 1 (latest_date df)) r.date))) := by
  rw [filter_dataframe_by_duration, if_neg (by decide), start_date,
    if_neg (by decide), if_neg (by decide), if_neg (by decide), if_pos rfl]

theorem filter_token_1WK (df : List PosRow) :
    filter_dataframe_by_duration df "1WK"
      = .ok (df.filter (fun r =>
          decide (dateLe (subDays 7 (latest_date df)) r.date))) := by
  rw [filter_dataframe_by_duration, if_neg (by decide), start_date,
    if_neg (by decide), if_neg (by decide), if_neg (by decide),
    if_neg (by decide), if_pos rfl]

theorem filter_subset_of_le (df : List PosRow) (c1 c2 : Date)
    (hc : dateLe c2 c1) :
    ∀ r ∈ df.filter (fun r => decide (dateLe c1 r.date)),
      r ∈ df.filter (fun r => decide (dateLe c2 r.date)) := by
  intro r hr
  rw [List.mem_filter] at hr ⊢
  refine ⟨hr.1, ?_⟩
  exact decide_eq_true (dateLe_trans hc (of_decide_eq_true hr.2))

/-! ## Claim C6 -/

/-- A two-row derived series whose latest date is 01-03-2023, as
`create_position_df` would produce it. -/
def exRow0 : PosRow :=
  { date := ⟨2022, 12, 28⟩, credit := 100, close := 100, cumCredit := 100,
    dollarDelta := none, percDelta := none, percentage := some 0 }

def exRow1 : PosRow :=
  { date := ⟨2023, 1, 3⟩, credit := 0, close := 110, cumCredit := 100,
    dollarDelta := some 10, percDelta := some (100 / 11),
    percentage := some 10 }

def exYTDDf : List PosRow := [exRow0, exRow1]

/-- **C6 (counterexample).** The claim's inclusion into `"YTD"` fails: with
latest date 01-03-2023, the `1WK` cutoff is 12-27-2022 (spec Example 2), so
the 12-28-2022 row is in the `1WK` output but not in the `YTD` output
(cutoff 01-01-2023). -/
theorem c6_counterexample :
    ¬ (∀ r ∈ okRows (filter_dataframe_by_duration exYTDDf "1WK"),
        r ∈ okRows (filter_dataframe_by_duration exYTDDf "YTD")) := by
  intro h
  have h0 : exRow0 ∈ okRows (filter_dataframe_by_duration exYTDDf "1WK") := by
    rw [filter_token_1WK]
    show exRow0 ∈ exYTDDf.filter
      (fun r => decide (dateLe (subDays 7 (latest_date exYTDDf)) r.date))
    apply List.mem_filter.mpr
    refine ⟨by simp [exYTDDf], by decide⟩
  have h2 := h exRow0 h0
  rw [filter_token_YTD] at h2
  have h2' : exRow0 ∈ exYTDDf.filter
      (fun r => decide (dateLe ⟨(latest_date exYTDDf).year, 1, 1⟩ r.date)) := h2
  have hp := List.of_mem_filter h2'
  exact absurd hp (by decide)

/-- **C6 (amended).** For every fixed derived series (of valid dates), the
relative windows nest:
`1WK ⊆ 1MO ⊆ 3MO ⊆ 1YR ⊆ Total`.  (The original claim also nested them
inside `YTD`; that fails, see `c6_counterexample`.) -/
theorem c6_duration_filter_nested (df : List PosRow)
    (hvalid : ∀ r ∈ df, ValidDate r.date) :
    (∀ r ∈ okRows (filter_dataframe_by_duration df "1WK"),
        r ∈ okRows (filter_dataframe_by_duration df "1MO")) ∧
      (∀ r ∈ okRows (filter_dataframe_by_duration df "1MO"),
        r ∈ okRows (filter_dataframe_by_duration df "3MO")) ∧
      (∀ r ∈ okRows (filter_dataframe_by_duration df "3MO"),
        r ∈ okRows (filter_dataframe_by_duration df "1YR")) ∧
      (∀ r ∈ okRows (filter_dataframe_by_duration df "1YR"),
        r ∈ okRows (filter_dataframe_by_duration df "Total")) := by
  have hL : ValidDate (latest_date df) := latest_date_valid df hvalid
  refine ⟨?_, ?_, ?_, ?_⟩
  · intro r hr
    rw [filter_token_1WK] at hr
    rw [filter_token_1MO]
    exact filter_subset_of_le df (subDays 7 (latest_date df))
      (subMonths 1 (latest_date df))
      (subMonths_one_le_subDays_seven (latest_date df) hL) r hr
  · intro r hr
    rw [filter_token_1MO] at hr
    rw [filter_token_3MO]
    exact filter_subset_of_le df (subMonths 1 (latest_date df))
      (subMonths 3 (latest_date df))
      (subMonths_three_le_subMonths_one (latest_date df) hL) r hr
  · intro r hr
    rw [filter_token_3MO] at hr
    rw [filter_token_1YR]
    exact filter_subset_of_le df (subMonths 3 (latest_date df))
      (subYears 1 (latest_date df))
      (subYears_one_le_subMonths_three (latest_date df) hL) r hr
  · intro r hr
    rw [filter_token_1YR] at hr
    rw [filter_token_Total]
    exact List.mem_of_mem_filter hr

/-- Witness for the amended C6 at the concrete two-row series, by
`c6_duration_filter_nested`. -/
theorem c6_witness :
    (∀ r ∈ exYTDDf, ValidDate r.date) ∧
      ((∀ r ∈ okRows (filter_dataframe_by_duration exYTDDf "1WK"),
          r ∈ okRows (filter_dataframe_by_duration exYTDDf "1MO")) ∧
        (∀ r ∈ okRows (filter_dataframe_by_duration exYTDDf "1MO"),
          r ∈ okRows (filter_dataframe_by_duration exYTDDf "3MO")) ∧
        (∀ r ∈ okRows (filter_dataframe_by_duration exYTDDf "3MO"),
          r ∈ okRows (filter_dataframe_by_duration exYTDDf "1YR")) ∧
        (∀ r ∈ okRows (filter_dataframe_by_duration exYTDDf "1YR"),
          r ∈ okRows (filter_dataframe_by_duration exYTDDf "Total"))) :=
  ⟨by decide, c6_duration_filter_nested exYTDDf (by decide)⟩

end Account
